import Mathlib

/-!
Verification of the movie-catalog pagination core.

The two route handlers live in `src/routes/movies.py`; the response schemas
in `src/schemas/movies.py`.  The `database` module (`MovieModel`, the session
`get_db`) is not part of the sources, so the repository is modelled from the
spec as an ordered list of rows; each SQL read is an explicit state-passing
operation returning the (unchanged) store, so that the absence of mutation is
a provable frame property rather than an assumption.
-/

/-- Modelled from the spec: `MovieModel`, the row type of the missing
`database` module.  Field names follow the attribute accesses in
`routes/movies.py` (`movie.id`, `movie.name`, `movie.date`, ...); textual
columns are strings, `id` is the integer primary key, and the numeric columns
(`score`, `budget`, `revenue`) are exact rationals. -/
structure MovieModel where
  id : Int
  name : String
  date : String
  score : Rat
  genre : String
  overview : String
  crew : String
  orig_title : String
  status : String
  orig_lang : String
  budget : Rat
  revenue : Rat
  country : String
deriving Repr, DecidableEq

/-- Schema for a single movie detail response (`schemas/movies.py`). -/
structure MovieDetailResponseSchema where
  id : Int
  name : String
  date : String
  score : Rat
  genre : String
  overview : String
  crew : String
  orig_title : String
  status : String
  orig_lang : String
  budget : Rat
  revenue : Rat
  country : String
deriving Repr, DecidableEq

/-- Schema for a paginated list of movies response (`schemas/movies.py`). -/
structure MovieListResponseSchema where
  movies : List MovieDetailResponseSchema
  prev_page : Option String
  next_page : Option String
  total_pages : Nat
  total_items : Nat
deriving Repr, DecidableEq

/-- FastAPI's `HTTPException`: a status code and a human-readable detail. -/
structure HTTPException where
  status_code : Nat
  detail : String
deriving Repr, DecidableEq

/-- Modelled from the spec: the Repository external collaborator is an
ordered sequence of movie rows ("whatever stable order the Repository
returns"). -/
abbrev Repo := List MovieModel

/-- `SELECT count(*) FROM movies` — a read: returns the count and the store
unchanged. -/
def dbCountMovies (db : Repo) : Nat × Repo := (db.length, db)

/-- `SELECT * FROM movies OFFSET offset LIMIT limit` — a read: returns the
requested slice of the stable order and the store unchanged. -/
def dbFetchPage (offset limit : Nat) (db : Repo) : List MovieModel × Repo :=
  ((db.drop offset).take limit, db)

/-- `db.get(MovieModel, movie_id)` — primary-key lookup, a read: returns the
row with the given id (if any) and the store unchanged. -/
def dbGetById (movie_id : Int) (db : Repo) : Option MovieModel × Repo :=
  (db.find? (fun m => m.id == movie_id), db)

/-- Python's `float(...)` applied to the `budget` column.  On the exact
rational embedding the conversion is value-preserving; binary rounding of the
Python `float` type is not modelled. -/
def pyFloat (q : Rat) : Rat := q

/-- The `MovieDetailResponseSchema(...)` construction that both handlers in
`routes/movies.py` perform field by field (lines 57-73 and 116-130): every
column is passed through unchanged except `budget`, which goes through
`float(...)`. -/
def movieToSchema (movie : MovieModel) : MovieDetailResponseSchema :=
  { id := movie.id
    name := movie.name
    date := movie.date
    score := movie.score
    genre := movie.genre
    overview := movie.overview
    crew := movie.crew
    orig_title := movie.orig_title
    status := movie.status
    orig_lang := movie.orig_lang
    budget := pyFloat movie.budget
    revenue := movie.revenue
    country := movie.country }

/-- The fixed base path used for navigation links (`routes/movies.py`
line 76). -/
def base_url : String := "/api/v1/theater/movies/"

/-- `GET /movies/` handler (`routes/movies.py`, `get_movies`).  Takes the
pre-validated `page` and `per_page` and the database state; returns either an
`HTTPException` or the list response, together with the database state after
the request. -/
def get_movies (page per_page : Nat) (db : Repo) :
    Except HTTPException MovieListResponseSchema × Repo :=
  let offset := (page - 1) * per_page
  let (total_items, db1) := dbCountMovies db
  if total_items = 0 then
    (Except.error { status_code := 404, detail := "No movies found." }, db1)
  else
    let total_pages := (total_items + per_page - 1) / per_page
    if page > total_pages then
      (Except.error { status_code := 404, detail := "No movies found." }, db1)
    else
      let (movies, db2) := dbFetchPage offset per_page db1
      let movie_schemas := movies.map movieToSchema
      let prev_page : Option String :=
        if page > 1 then some s!"{base_url}?page={page - 1}&per_page={per_page}" else none
      let next_page : Option String :=
        if page < total_pages then some s!"{base_url}?page={page + 1}&per_page={per_page}" else none
      (Except.ok
        { movies := movie_schemas
          prev_page := prev_page
          next_page := next_page
          total_pages := total_pages
          total_items := total_items }, db2)

/-- `GET /movies/{movie_id}/` handler (`routes/movies.py`,
`get_movie_by_id`). -/
def get_movie_by_id (movie_id : Int) (db : Repo) :
    Except HTTPException MovieDetailResponseSchema × Repo :=
  let (movie, db1) := dbGetById movie_id db
  match movie with
  | none =>
      (Except.error { status_code := 404, detail := "Movie with the given ID was not found." }, db1)
  | some movie => (Except.ok (movieToSchema movie), db1)

/-- The 404 exception raised on both error paths of `get_movies`. -/
def noMoviesFound : HTTPException := { status_code := 404, detail := "No movies found." }

/-- The 404 exception raised by `get_movie_by_id` on an absent id. -/
def movieNotFound : HTTPException :=
  { status_code := 404, detail := "Movie with the given ID was not found." }

/-- The `total_pages` expression of `routes/movies.py` line 41:
`(total_items + per_page - 1) // per_page`. -/
def total_pages_calc (total_items per_page : Nat) : Nat :=
  (total_items + per_page - 1) / per_page

/-- The navigation-link format from the spec: a fixed base path followed by
exactly the `page` and `per_page` query parameters. -/
def linkForm (base : String) (n m : Nat) : String := s!"{base}?page={n}&per_page={m}"

/-- A concrete movie row used in witnesses and scenarios. -/
def sampleMovie (i : Int) : MovieModel :=
  { id := i
    name := "Movie"
    date := "2020-01-01"
    score := 75
    genre := "drama"
    overview := "..."
    crew := "crew"
    orig_title := "Movie"
    status := "Released"
    orig_lang := "en"
    budget := 1000000
    revenue := 2000000
    country := "US" }

/-- A one-row repository, used as a concrete witness input. -/
def oneMovieRepo : Repo := [sampleMovie 1]

/-- The response `get_movies 1 10 oneMovieRepo` produces. -/
def oneMovieResult : MovieListResponseSchema :=
  { movies := [movieToSchema (sampleMovie 1)]
    prev_page := none
    next_page := none
    total_pages := 1
    total_items := 1 }

/-- A two-row repository, used as a concrete witness input. -/
def twoMoviesRepo : Repo := [sampleMovie 1, sampleMovie 2]

/-- The response `get_movies 2 1 twoMoviesRepo` produces. -/
def page2Result : MovieListResponseSchema :=
  { movies := [movieToSchema (sampleMovie 2)]
    prev_page := some "/api/v1/theater/movies/?page=1&per_page=1"
    next_page := none
    total_pages := 2
    total_items := 2 }

/-- A repository of 25 rows, the scenario from the spec. -/
def repo25 : Repo := (List.range 25).map (fun i => sampleMovie i)

example : (get_movies 1 10 oneMovieRepo).1 = Except.ok oneMovieResult := rfl

example : (get_movies 2 1 twoMoviesRepo).1 = Except.ok page2Result := rfl

example : (get_movies 1 10 []).1 = Except.error noMoviesFound := rfl

example : (get_movies 2 10 [sampleMovie 1]).1 = Except.error noMoviesFound := rfl

example : (get_movie_by_id 7 [sampleMovie 1]).1 = Except.error movieNotFound := rfl

example : (get_movie_by_id 1 [sampleMovie 1]).1 = Except.ok (movieToSchema (sampleMovie 1)) := rfl

lemma get_movies_error_of_empty (page per_page : Nat) (db : Repo) (h : db.length = 0) :
    (get_movies page per_page db).1 = Except.error noMoviesFound := by
  simp only [get_movies, dbCountMovies, dbFetchPage, noMoviesFound]
  rw [if_pos h]

lemma get_movies_error_of_page_gt (page per_page : Nat) (db : Repo)
    (h0 : db.length ≠ 0) (h1 : total_pages_calc db.length per_page < page) :
    (get_movies page per_page db).1 = Except.error noMoviesFound := by
  simp only [get_movies, dbCountMovies, dbFetchPage, noMoviesFound,
    total_pages_calc] at *
  rw [if_neg h0, if_pos h1]

lemma get_movies_ok (page per_page : Nat) (db : Repo)
    (h0 : db.length ≠ 0) (h1 : page ≤ total_pages_calc db.length per_page) :
    (get_movies page per_page db).1 = Except.ok
      { movies := ((db.drop ((page - 1) * per_page)).take per_page).map movieToSchema
        prev_page := if 1 < page then some (linkForm base_url (page - 1) per_page) else none
        next_page :=
          if page < total_pages_calc db.length per_page then
            some (linkForm base_url (page + 1) per_page)
          else none
        total_pages := total_pages_calc db.length per_page
        total_items := db.length } := by
  simp only [get_movies, dbCountMovies, dbFetchPage, total_pages_calc, linkForm] at *
  rw [if_neg h0, if_neg (by omega)]

lemma get_movies_ok_elim (page per_page : Nat) (db : Repo) (r : MovieListResponseSchema)
    (h : (get_movies page per_page db).1 = Except.ok r) :
    db.length ≠ 0 ∧ page ≤ total_pages_calc db.length per_page ∧
    r = { movies := ((db.drop ((page - 1) * per_page)).take per_page).map movieToSchema
          prev_page := if 1 < page then some (linkForm base_url (page - 1) per_page) else none
          next_page :=
            if page < total_pages_calc db.length per_page then
              some (linkForm base_url (page + 1) per_page)
            else none
          total_pages := total_pages_calc db.length per_page
          total_items := db.length } := by
  by_cases h0 : db.length = 0
  · rw [get_movies_error_of_empty _ _ _ h0] at h
    exact absurd h (by simp)
  · by_cases h1 : page ≤ total_pages_calc db.length per_page
    · refine ⟨h0, h1, ?_⟩
      rw [get_movies_ok _ _ _ h0 h1] at h
      exact (Except.ok.inj h).symm
    · rw [get_movies_error_of_page_gt _ _ _ h0 (by omega)] at h
      exact absurd h (by simp)

lemma nat_add_pred_div_eq_ceil (a b : Nat) (hb : 0 < b) :
    (a + b - 1) / b = ⌈(a : ℚ) / (b : ℚ)⌉₊ := by
  rw [← Nat.ceilDiv_eq_add_pred_div]
  refine eq_of_forall_ge_iff fun c => ?_
  rw [ceilDiv_le_iff_le_mul hb, Nat.ceil_le, div_le_iff₀ (by exact_mod_cast hb),
    mul_comm (c : ℚ) (b : ℚ)]
  exact_mod_cast Iff.rfl

lemma get_movies_ok_fields (page per_page : Nat) (db : Repo) (r : MovieListResponseSchema)
    (h : (get_movies page per_page db).1 = Except.ok r) :
    db.length ≠ 0 ∧ page ≤ total_pages_calc db.length per_page ∧
    r.movies = ((db.drop ((page - 1) * per_page)).take per_page).map movieToSchema ∧
    r.prev_page = (if 1 < page then some (linkForm base_url (page - 1) per_page) else none) ∧
    r.next_page = (if page < total_pages_calc db.length per_page then
        some (linkForm base_url (page + 1) per_page) else none) ∧
    r.total_pages = total_pages_calc db.length per_page ∧
    r.total_items = db.length := by
  obtain ⟨h0, h1, rfl⟩ := get_movies_ok_elim page per_page db r h
  exact ⟨h0, h1, rfl, rfl, rfl, rfl, rfl⟩

/-- C1: on every successful `get_movies` response (success forces
`total_items > 0`) with `per_page` in `[1, 20]`, the returned `total_pages`
equals the ceiling of `total_items / per_page` — ceiling division, not
truncation. -/
theorem get_movies_total_pages_is_ceil (page per_page : Nat) (db : Repo)
    (r : MovieListResponseSchema) (hpp1 : 1 ≤ per_page) (_hpp2 : per_page ≤ 20)
    (h : (get_movies page per_page db).1 = Except.ok r) :
    0 < r.total_items ∧ r.total_pages = ⌈(r.total_items : ℚ) / (per_page : ℚ)⌉₊ := by
  obtain ⟨h0, _, _, _, _, htp, hti⟩ := get_movies_ok_fields page per_page db r h
  refine ⟨by omega, ?_⟩
  rw [htp, hti, total_pages_calc]
  exact nat_add_pred_div_eq_ceil _ _ hpp1

/-- Witness for C1 at `page = 1`, `per_page = 10` on a one-row repository. -/
theorem get_movies_total_pages_is_ceil_witness :
    0 < oneMovieResult.total_items ∧
    oneMovieResult.total_pages = ⌈(oneMovieResult.total_items : ℚ) / ((10 : Nat) : ℚ)⌉₊ :=
  get_movies_total_pages_is_ceil 1 10 oneMovieRepo oneMovieResult (by decide) (by decide) rfl

/-- C2: every successful `get_movies` response holds exactly the slice of the
repository order starting at `offset = (page - 1) * per_page`, so the item
count is `min per_page (total_items - offset)`. -/
theorem get_movies_fetch_window (page per_page : Nat) (db : Repo)
    (r : MovieListResponseSchema) (_hp : 1 ≤ page) (_hpp1 : 1 ≤ per_page)
    (_hpp2 : per_page ≤ 20) (h : (get_movies page per_page db).1 = Except.ok r) :
    r.movies = ((db.drop ((page - 1) * per_page)).take per_page).map movieToSchema ∧
    r.movies.length = min per_page (r.total_items - (page - 1) * per_page) := by
  obtain ⟨h0, h1, hm, _, _, _, hti⟩ := get_movies_ok_fields page per_page db r h
  refine ⟨hm, ?_⟩
  rw [hm, hti]
  simp [List.length_take, List.length_drop]

/-- Witness for C2 at `page = 2`, `per_page = 1` on a two-row repository. -/
theorem get_movies_fetch_window_witness :
    page2Result.movies =
      ((twoMoviesRepo.drop ((2 - 1) * 1)).take 1).map movieToSchema ∧
    page2Result.movies.length = min 1 (page2Result.total_items - (2 - 1) * 1) :=
  get_movies_fetch_window 2 1 twoMoviesRepo page2Result (by decide) (by decide) (by decide) rfl

/-- C3: with pre-validated inputs, `get_movies` fails exactly when the
repository is empty or the requested page exceeds the computed page total,
the only failure is the 404 "No movies found." exception, and every other
input yields a successful response. -/
theorem get_movies_notFound_characterization (page per_page : Nat) (db : Repo)
    (_hp : 1 ≤ page) (_hpp1 : 1 ≤ per_page) (_hpp2 : per_page ≤ 20) :
    ((∃ e, (get_movies page per_page db).1 = Except.error e) ↔
      db.length = 0 ∨ total_pages_calc db.length per_page < page) ∧
    (∀ e, (get_movies page per_page db).1 = Except.error e → e = noMoviesFound) ∧
    (¬ (db.length = 0 ∨ total_pages_calc db.length per_page < page) →
      ∃ r, (get_movies page per_page db).1 = Except.ok r) := by
  refine ⟨⟨?_, ?_⟩, ?_, ?_⟩
  · rintro ⟨e, he⟩
    by_contra hc
    push_neg at hc
    obtain ⟨h0, h1⟩ := hc
    rw [get_movies_ok page per_page db h0 (by omega)] at he
    exact absurd he (by simp)
  · rintro (h0 | h1)
    · exact ⟨_, get_movies_error_of_empty _ _ _ h0⟩
    · by_cases h0 : db.length = 0
      · exact ⟨_, get_movies_error_of_empty _ _ _ h0⟩
      · exact ⟨_, get_movies_error_of_page_gt _ _ _ h0 h1⟩
  · intro e he
    by_cases h0 : db.length = 0
    · have := he.symm.trans (get_movies_error_of_empty page per_page db h0)
      exact Except.error.inj this
    · by_cases h1 : total_pages_calc db.length per_page < page
      · have := he.symm.trans (get_movies_error_of_page_gt page per_page db h0 h1)
        exact Except.error.inj this
      · rw [get_movies_ok page per_page db h0 (by omega)] at he
        exact absurd he (by simp)
  · intro hc
    push_neg at hc
    exact ⟨_, get_movies_ok page per_page db hc.1 (by omega)⟩

/-- Witness for C3 at `page = 1`, `per_page = 10` on the empty repository. -/
theorem get_movies_notFound_characterization_witness :
    ((∃ e, (get_movies 1 10 ([] : Repo)).1 = Except.error e) ↔
      ([] : Repo).length = 0 ∨ total_pages_calc ([] : Repo).length 10 < 1) ∧
    (∀ e, (get_movies 1 10 ([] : Repo)).1 = Except.error e → e = noMoviesFound) ∧
    (¬ (([] : Repo).length = 0 ∨ total_pages_calc ([] : Repo).length 10 < 1) →
      ∃ r, (get_movies 1 10 ([] : Repo)).1 = Except.ok r) :=
  get_movies_notFound_characterization 1 10 [] (by decide) (by decide) (by decide)

/-- C4: on every successful `get_movies` response, `prev_page` is present
exactly when `page > 1` and then points to `page - 1` at the same `per_page`,
and `next_page` is present exactly when `page < total_pages` and then points
to `page + 1` at the same `per_page`. -/
theorem get_movies_nav_links (page per_page : Nat) (db : Repo)
    (r : MovieListResponseSchema) (_hp : 1 ≤ page) (_hpp1 : 1 ≤ per_page)
    (_hpp2 : per_page ≤ 20) (h : (get_movies page per_page db).1 = Except.ok r) :
    r.prev_page = (if 1 < page then some (linkForm base_url (page - 1) per_page) else none) ∧
    r.next_page =
      (if page < r.total_pages then some (linkForm base_url (page + 1) per_page) else none) := by
  obtain ⟨h0, h1, _, hprev, hnext, htp, _⟩ := get_movies_ok_fields page per_page db r h
  rw [htp]
  exact ⟨hprev, hnext⟩

/-- Witness for C4 at `page = 2`, `per_page = 1` on a two-row repository. -/
theorem get_movies_nav_links_witness :
    page2Result.prev_page =
      (if 1 < 2 then some (linkForm base_url (2 - 1) 1) else none) ∧
    page2Result.next_page =
      (if 2 < page2Result.total_pages then some (linkForm base_url (2 + 1) 1) else none) :=
  get_movies_nav_links 2 1 twoMoviesRepo page2Result (by decide) (by decide) (by decide) rfl

/-- C5: when the repository holds a row with the requested id,
`get_movie_by_id` returns it field-for-field, with `budget` passed through
the floating-point normalization; on an absent id it fails with the 404
"Movie with the given ID was not found." exception. -/
theorem get_movie_by_id_roundtrip (movie_id : Int) (db : Repo) :
    (∀ movie, db.find? (fun m => m.id == movie_id) = some movie →
      (get_movie_by_id movie_id db).1 = Except.ok
        { id := movie.id
          name := movie.name
          date := movie.date
          score := movie.score
          genre := movie.genre
          overview := movie.overview
          crew := movie.crew
          orig_title := movie.orig_title
          status := movie.status
          orig_lang := movie.orig_lang
          budget := pyFloat movie.budget
          revenue := movie.revenue
          country := movie.country }) ∧
    (db.find? (fun m => m.id == movie_id) = none →
      (get_movie_by_id movie_id db).1 = Except.error movieNotFound) := by
  constructor
  · intro movie hf
    simp [get_movie_by_id, dbGetById, hf, movieToSchema]
  · intro hf
    simp [get_movie_by_id, dbGetById, hf, movieNotFound]

/-- Witness for C5: a present id round-trips, an absent id yields the 404. -/
theorem get_movie_by_id_roundtrip_witness :
    (get_movie_by_id 1 twoMoviesRepo).1 = Except.ok (movieToSchema (sampleMovie 1)) ∧
    (get_movie_by_id 99 twoMoviesRepo).1 = Except.error movieNotFound :=
  ⟨(get_movie_by_id_roundtrip 1 twoMoviesRepo).1 (sampleMovie 1) rfl,
   (get_movie_by_id_roundtrip 99 twoMoviesRepo).2 rfl⟩

/-- Counterexample for C6: the empty-collection and absent-id failures share
the 404 status but carry different detail messages, so the three NotFound
cases are not externally identical. -/
theorem notFound_signals_differ :
    (get_movies 1 10 ([] : Repo)).1 = Except.error noMoviesFound ∧
    (get_movie_by_id 1 ([] : Repo)).1 = Except.error movieNotFound ∧
    noMoviesFound.status_code = movieNotFound.status_code ∧
    noMoviesFound.detail ≠ movieNotFound.detail := by
  refine ⟨rfl, rfl, rfl, ?_⟩
  decide

/-- C6 (amended): every failure of either handler carries status 404; the two
list-endpoint cases (empty collection, page out of range) are externally
identical, both yielding the detail "No movies found.", while the detail
lookup yields the 404 status with its own message. -/
theorem notFound_status_uniform (page per_page : Nat) (movie_id : Int) (db : Repo) :
    (∀ e, (get_movies page per_page db).1 = Except.error e →
      e.status_code = 404 ∧ e.detail = "No movies found.") ∧
    (∀ e, (get_movie_by_id movie_id db).1 = Except.error e →
      e.status_code = 404 ∧ e.detail = "Movie with the given ID was not found.") := by
  constructor
  · intro e he
    by_cases h0 : db.length = 0
    · have h := Except.error.inj
        (he.symm.trans (get_movies_error_of_empty page per_page db h0))
      rw [h]
      exact ⟨rfl, rfl⟩
    · by_cases h1 : total_pages_calc db.length per_page < page
      · have h := Except.error.inj
          (he.symm.trans (get_movies_error_of_page_gt page per_page db h0 h1))
        rw [h]
        exact ⟨rfl, rfl⟩
      · rw [get_movies_ok page per_page db h0 (by omega)] at he
        exact absurd he (by simp)
  · intro e he
    cases hf : db.find? (fun m => m.id == movie_id) with
    | none =>
        simp only [get_movie_by_id, dbGetById, hf] at he
        obtain rfl := (Except.error.inj he).symm
        exact ⟨rfl, rfl⟩
    | some m =>
        simp only [get_movie_by_id, dbGetById, hf] at he
        exact absurd he (by simp)

/-- Witness for C6 (amended) on the empty repository. -/
theorem notFound_status_uniform_witness :
    (noMoviesFound.status_code = 404 ∧ noMoviesFound.detail = "No movies found.") ∧
    (movieNotFound.status_code = 404 ∧
      movieNotFound.detail = "Movie with the given ID was not found.") :=
  ⟨(notFound_status_uniform 1 10 1 []).1 noMoviesFound rfl,
   (notFound_status_uniform 1 10 1 []).2 movieNotFound rfl⟩

/-- C7: every navigation link a successful `get_movies` response carries is
exactly the fixed base path — the same constant for both directions — with
only the `page` and `per_page` query parameters, the latter echoing the
request's `per_page`. -/
theorem get_movies_link_shape (page per_page : Nat) (db : Repo)
    (r : MovieListResponseSchema) (h : (get_movies page per_page db).1 = Except.ok r) :
    (∀ s, r.prev_page = some s → s = linkForm base_url (page - 1) per_page) ∧
    (∀ s, r.next_page = some s → s = linkForm base_url (page + 1) per_page) := by
  obtain ⟨h0, h1, _, hprev, hnext, _, _⟩ := get_movies_ok_fields page per_page db r h
  constructor
  · intro s hs
    rw [hprev] at hs
    by_cases hpage : 1 < page
    · rw [if_pos hpage] at hs
      exact (Option.some.inj hs).symm
    · rw [if_neg hpage] at hs
      cases hs
  · intro s hs
    rw [hnext] at hs
    by_cases hpage : page < total_pages_calc db.length per_page
    · rw [if_pos hpage] at hs
      exact (Option.some.inj hs).symm
    · rw [if_neg hpage] at hs
      cases hs

/-- Witness for C7 at `page = 2`, `per_page = 1` on a two-row repository. -/
theorem get_movies_link_shape_witness :
    (∀ s, page2Result.prev_page = some s → s = linkForm base_url (2 - 1) 1) ∧
    (∀ s, page2Result.next_page = some s → s = linkForm base_url (2 + 1) 1) :=
  get_movies_link_shape 2 1 twoMoviesRepo page2Result rfl

/-- C8: with 25 records and `per_page = 10`, page 1 returns 10 items,
`total_pages = 3`, no prev link and a next link to page 2; page 3 returns
5 items, a prev link to page 2 and no next link. -/
theorem get_movies_scenario_25 :
    ((get_movies 1 10 repo25).1.toOption.map
        (fun r => (r.movies.length, r.total_pages, r.prev_page, r.next_page)) =
      some (10, 3, none, some "/api/v1/theater/movies/?page=2&per_page=10")) ∧
    ((get_movies 3 10 repo25).1.toOption.map
        (fun r => (r.movies.length, r.prev_page, r.next_page)) =
      some (5, some "/api/v1/theater/movies/?page=2&per_page=10", none)) :=
  ⟨rfl, rfl⟩

/-- C9: both handlers leave the repository state unchanged on every path —
they issue only read queries. -/
theorem handlers_read_only (page per_page : Nat) (movie_id : Int) (db : Repo) :
    (get_movies page per_page db).2 = db ∧ (get_movie_by_id movie_id db).2 = db := by
  constructor
  · simp only [get_movies, dbCountMovies, dbFetchPage]
    split
    · rfl
    · split
      · rfl
      · rfl
  · simp only [get_movie_by_id, dbGetById]
    cases db.find? (fun m => m.id == movie_id) <;> rfl

/-- C10: every successful `get_movies` response carries a non-empty page of
at most `per_page` items, at least one total item and one total page, and a
requested page within `total_pages` — a 200 response never carries an empty
page. -/
theorem get_movies_success_invariant (page per_page : Nat) (db : Repo)
    (r : MovieListResponseSchema) (hp : 1 ≤ page) (hpp1 : 1 ≤ per_page)
    (hpp2 : per_page ≤ 20) (h : (get_movies page per_page db).1 = Except.ok r) :
    r.movies ≠ [] ∧ r.movies.length ≤ per_page ∧ 1 ≤ r.total_items ∧
    1 ≤ r.total_pages ∧ page ≤ r.total_pages := by
  obtain ⟨h0, h1, hm, _, _, htp, hti⟩ := get_movies_ok_fields page per_page db r h
  have hq : total_pages_calc db.length per_page * per_page ≤ db.length + per_page - 1 :=
    Nat.div_mul_le_self _ _
  have hmono : (page - 1) * per_page ≤ (total_pages_calc db.length per_page - 1) * per_page :=
    Nat.mul_le_mul_right _ (by omega)
  have hsub : (total_pages_calc db.length per_page - 1) * per_page =
      total_pages_calc db.length per_page * per_page - per_page := by
    rw [Nat.sub_mul, one_mul]
  have hoff : (page - 1) * per_page < db.length := by omega
  have hlen : r.movies.length = min per_page (db.length - (page - 1) * per_page) := by
    rw [hm]
    simp [List.length_take, List.length_drop]
  refine ⟨?_, ?_, by omega, ?_, by omega⟩
  · intro hnil
    rw [hnil] at hlen
    simp only [List.length_nil] at hlen
    omega
  · rw [hlen]
    exact Nat.min_le_left _ _
  · rw [htp, total_pages_calc, Nat.one_le_div_iff hpp1]
    omega

/-- Witness for C10 at `page = 2`, `per_page = 1` on a two-row repository. -/
theorem get_movies_success_invariant_witness :
    page2Result.movies ≠ [] ∧ page2Result.movies.length ≤ 1 ∧
    1 ≤ page2Result.total_items ∧ 1 ≤ page2Result.total_pages ∧
    2 ≤ page2Result.total_pages :=
  get_movies_success_invariant 2 1 twoMoviesRepo page2Result
    (by decide) (by decide) (by decide) rfl
